import Mathlib

/-!
Shallow embedding of `HdfsClient`
(`ambari-server/src/main/resources/common-services/HDFS/2.1.0.2.0/package/scripts/hdfs_client.py`)
and the security-status evaluation flow described by the specification.

Modelling conventions:
* Python string parameters that may be absent (`None`) are `Option String`;
  Python truthiness of such a value is `py_truthy`.
* The structured-output channel (`put_structured_out`) is a record of the
  three keys the script ever writes; successive calls merge keys.
* The injected capabilities are represented by their observable results:
  `security_params` is what `get_params_from_filesystem` returned, and
  `kinit_result` is the outcome `cached_kinit_executor` would produce if
  invoked (`Except.error msg` models an exception `e` with `str(e) = msg`).
  Which capabilities actually run on a path is recorded in `Invoked`.
-/

/-- Python truthiness of an optional string: `None` and `""` are falsy. -/
def py_truthy : Option String → Bool
  | none => false
  | some s => s ≠ ""

/-- A flat key→value configuration mapping (one configuration source). -/
abbrev ConfigMap := List (String × String)

/-- Mapping from configuration-source identifier to its property mapping,
as returned by the filesystem reader. -/
abbrev SecurityParams := List (String × ConfigMap)

/-- Look up a property in a configuration mapping. -/
def lookup_prop (m : ConfigMap) (k : String) : Option String :=
  (m.find? (fun p => p.1 == k)).map (fun p => p.2)

/-- Look up a configuration source in the reader's result. -/
def lookup_source (sp : SecurityParams) (src : String) : Option ConfigMap :=
  (sp.find? (fun p => p.1 == src)).map (fun p => p.2)

/-- A string is non-blank when it has at least one non-whitespace character
(the "present and non-blank" requirement of spec §3). -/
def non_blank (s : String) : Bool :=
  s.data.any (fun c => !c.isWhitespace)

/-- The three kinds of expectations attached to one configuration source
(spec §3, `ExpectationSet`): exact-value checks, non-empty checks, and
optional readability checks. -/
structure Expectations where
  value_checks : List (String × String)
  empty_checks : List String
  read_checks : Option (List String)
deriving Repr, DecidableEq

/-- Modelled from the spec: `build_expectations` is library code missing from
`src/`; per §3 it pairs a named configuration source with its value /
non-empty / readable expectations. -/
def build_expectations (source : String) (vc : List (String × String))
    (ec : List String) (rc : Option (List String)) : List (String × Expectations) :=
  [(source, ⟨vc, ec, rc⟩)]

/-- Failure messages for one source's expectations against the actual
configuration found for it. Empty result means every expectation holds. -/
def check_expectations (actual : ConfigMap) (e : Expectations) : List String :=
  (e.value_checks.filterMap fun p =>
    if lookup_prop actual p.1 == some p.2 then none
    else some ("Property " ++ p.1 ++ " did not match the expected value " ++ p.2))
  ++ (e.empty_checks.filterMap fun k =>
    match lookup_prop actual k with
    | some s => if non_blank s then none else some ("Property " ++ k ++ " is blank")
    | none => some ("Property " ++ k ++ " is blank"))
  ++ (match e.read_checks with
    | none => []
    | some ks => ks.filterMap fun k =>
        if (lookup_prop actual k).isSome then none
        else some ("Property " ++ k ++ " is not readable"))

/-- Modelled from the spec: `validate_security_config_properties` is library
code missing from `src/`; per §3/§4.1(b) it maps each configuration source
whose expectations are not all satisfied to a human-readable reason, and a
source appears only if at least one of its expectations failed. -/
def validate_security_config_properties (security_params : SecurityParams)
    (expectations : List (String × Expectations)) : List (String × String) :=
  expectations.filterMap fun se =>
    let actual := (lookup_source security_params se.1).getD []
    let fails := check_expectations actual se.2
    if fails.isEmpty then none
    else some (se.1, String.intercalate "; " fails)

/-- Boolean satisfaction of one source's expectations by an actual
configuration (used to phrase "all value and non-empty expectations are
satisfied"; readable checks included for generality). -/
def satisfies_expectations (actual : ConfigMap) (e : Expectations) : Bool :=
  (e.value_checks.all fun p => lookup_prop actual p.1 == some p.2)
  && (e.empty_checks.all fun k =>
      match lookup_prop actual k with
      | some s => non_blank s
      | none => false)
  && (match e.read_checks with
      | none => true
      | some ks => ks.all fun k => (lookup_prop actual k).isSome)

/-- The structured-output channel: the flat key→string mapping written via
`put_structured_out`, restricted to the three keys the script uses. -/
structure StructuredOut where
  securityState : Option String := none
  securityIssuesFound : Option String := none
  securityStateErrorInfo : Option String := none
deriving Repr, DecidableEq

/-- `self.put_structured_out({"securityState": v})`. -/
def put_securityState (o : StructuredOut) (v : String) : StructuredOut :=
  { o with securityState := some v }

/-- `self.put_structured_out({"securityIssuesFound": v})`. -/
def put_securityIssuesFound (o : StructuredOut) (v : String) : StructuredOut :=
  { o with securityIssuesFound := some v }

/-- `self.put_structured_out({"securityStateErrorInfo": v})`. -/
def put_securityStateErrorInfo (o : StructuredOut) (v : String) : StructuredOut :=
  { o with securityStateErrorInfo := some v }

/-- Which injected capabilities actually ran during one evaluation. -/
structure Invoked where
  configReadInvoked : Bool
  validateInvoked : Bool
  credCheckInvoked : Bool
deriving Repr, DecidableEq

/-- The fields of `status_params` that `security_status` reads. -/
structure StatusParams where
  security_enabled : Bool
  hdfs_user_principal : Option String
  hdfs_user_keytab : Option String
  hdfs_user : String
  kinit_path_local : String
  hostname : String
  tmp_dir : String
  hadoop_conf_dir : String

namespace HdfsClient

/-- `props_value_check` literal from `security_status`. -/
def props_value_check : List (String × String) :=
  [("hadoop.security.authentication", "kerberos"),
   ("hadoop.security.authorization", "true")]

/-- `props_empty_check` literal from `security_status`. -/
def props_empty_check : List String :=
  ["hadoop.security.auth_to_local"]

/-- `props_read_check = None` from `security_status`. -/
def props_read_check : Option (List String) := none

/-- `core_site_expectations` then `hdfs_expectations.update(...)` from
`security_status`: the expectation mapping the method validates against. -/
def hdfs_expectations : List (String × Expectations) :=
  build_expectations "core-site" props_value_check props_empty_check props_read_check

/-- `HdfsClient.security_status`: the exact branching of the method.
`security_params` stands for the result of
`get_params_from_filesystem(hadoop_conf_dir, ['core-site.xml'])` and
`kinit_result` for the outcome of `cached_kinit_executor` where invoked.
Returns the structured output together with the capability-invocation
record. -/
def security_status (sp : StatusParams) (security_params : SecurityParams)
    (kinit_result : Except String Unit) : StructuredOut × Invoked :=
  if sp.security_enabled then
    let result_issues := validate_security_config_properties security_params hdfs_expectations
    if result_issues.isEmpty then
      if py_truthy sp.hdfs_user_principal || py_truthy sp.hdfs_user_keytab then
        match kinit_result with
        | Except.ok _ =>
            (put_securityState {} "SECURED_KERBEROS", ⟨true, true, true⟩)
        | Except.error e =>
            (put_securityStateErrorInfo (put_securityState {} "ERROR") e,
             ⟨true, true, true⟩)
      else
        (put_securityState
          (put_securityIssuesFound {} "hdfs principal and/or keytab file is not specified")
          "UNSECURED",
         ⟨true, true, false⟩)
    else
      let issues := result_issues.foldl
        (fun acc cf => acc ++ "Configuration file " ++ cf.1
          ++ " did not pass the validation. Reason: " ++ cf.2) ""
      (put_securityState (put_securityIssuesFound {} issues) "UNSECURED",
       ⟨true, true, false⟩)
  else
    (put_securityState {} "UNSECURED", ⟨false, false, false⟩)

/-- Modelled from the spec: `compare_versions` is library code missing from
`src/`; per §6 the gate performs a "semantic version comparison against a
threshold". Dot-separated numeric components compared left to right, a
missing component counting as zero. -/
def cmp_components : List Nat → List Nat → Int
  | [], [] => 0
  | [], bs => if bs.all (fun b => b == 0) then 0 else -1
  | as, [] => if as.all (fun a => a == 0) then 0 else 1
  | a :: as, b :: bs =>
    if a < b then -1 else if b < a then 1 else cmp_components as bs

/-- Split a character list at every dot. -/
def split_components : List Char → List (List Char)
  | [] => [[]]
  | c :: cs =>
    if c = '.' then [] :: split_components cs
    else
      match split_components cs with
      | [] => [[c]]
      | h :: t => (c :: h) :: t

/-- Numeric value of one version component; a component that is empty or not
all digits counts as zero. -/
def component_to_nat (cs : List Char) : Nat :=
  if cs ≠ [] ∧ cs.all (fun c => c.isDigit) then
    cs.foldl (fun n c => n * 10 + (c.toNat - 48)) 0
  else 0

/-- Numeric components of a dot-separated version string. -/
def parse_version (s : String) : List Nat :=
  (split_components s.data).map component_to_nat

/-- Modelled from the spec: semantic-version comparison of two version
strings; negative, zero or positive as the first compares to the second. -/
def compare_versions (v1 v2 : String) : Int :=
  cmp_components (parse_version v1) (parse_version v2)

/-- Modelled from the spec: `format_hdp_stack_version` is library code
missing from `src/`; the spec describes the gate as comparing the version
itself against the threshold, so it is modelled as the identity. -/
def format_hdp_stack_version (v : String) : String := v

/-- `HdfsClient.pre_rolling_restart`: returns the shell command executed
(`Execute(format("hdp-select set hadoop-client {version}"))`), or `none`
when the version gate does not pass. -/
def pre_rolling_restart (version : Option String) : Option String :=
  match version with
  | none => none
  | some v =>
    if v ≠ "" ∧ compare_versions (format_hdp_stack_version v) "2.2.0.0" ≥ 0 then
      some ("hdp-select set hadoop-client " ++ v)
    else
      none

/-- The signals a lifecycle method can raise. -/
inductive ScriptSignal where
  | clientComponentHasNoStatus
deriving Repr, DecidableEq

/-- `HdfsClient.status`: `raise ClientComponentHasNoStatus()`. -/
def status {Env : Type} (_env : Env) : Except ScriptSignal Unit :=
  Except.error ScriptSignal.clientComponentHasNoStatus

end HdfsClient

/-! ## Concrete fixtures used by witnesses and counterexamples -/

/-- A `core-site` configuration satisfying every expectation of
`HdfsClient.hdfs_expectations`. -/
def good_params : SecurityParams :=
  [("core-site",
    [("hadoop.security.authentication", "kerberos"),
     ("hadoop.security.authorization", "true"),
     ("hadoop.security.auth_to_local", "DEFAULT")])]

/-- Status parameters with security enabled and both principal and keytab
configured. -/
def sp_secured : StatusParams :=
  ⟨true, some "hdfs@EXAMPLE.COM", some "/etc/security/keytabs/hdfs.headless.keytab",
   "hdfs", "/usr/bin/kinit", "host1.example.com", "/tmp", "/etc/hadoop/conf"⟩

/-- Status parameters with a principal but no keytab. -/
def sp_only_principal : StatusParams :=
  { sp_secured with hdfs_user_keytab := none }

/-- Status parameters with neither principal nor keytab. -/
def sp_no_identity : StatusParams :=
  { sp_secured with hdfs_user_principal := none, hdfs_user_keytab := none }

/-- Status parameters with security disabled. -/
def sp_disabled : StatusParams :=
  { sp_secured with security_enabled := false }

/-- One line of the validation-failure report, as the source builds it:
`"Configuration file " + cf + " did not pass the validation. Reason: " + reason`. -/
def issue_line (cf : String × String) : String :=
  "Configuration file " ++ cf.1 ++ " did not pass the validation. Reason: " ++ cf.2

/-- Concatenation of the failure lines of every failing source, in mapping
iteration order — the spec's description of `issuesFound` for the
validation-failure branch. -/
def issues_concat : List (String × String) → String
  | [] => ""
  | cf :: t => issue_line cf ++ issues_concat t

/-! ## Helper lemmas -/

/-- When every expectation of one source is satisfied, the per-source check
produces no failure message. -/
theorem check_expectations_eq_nil (actual : ConfigMap) (e : Expectations)
    (h : satisfies_expectations actual e = true) : check_expectations actual e = [] := by
  unfold satisfies_expectations at h
  simp only [Bool.and_eq_true, List.all_eq_true] at h
  obtain ⟨⟨hv, he⟩, hr⟩ := h
  unfold check_expectations
  rw [List.append_eq_nil, List.append_eq_nil]
  refine ⟨⟨?_, ?_⟩, ?_⟩
  · rw [List.filterMap_eq_nil_iff]
    intro p hp
    simp [hv p hp]
  · rw [List.filterMap_eq_nil_iff]
    intro k hk
    have hb := he k hk
    cases hlk : lookup_prop actual k with
    | none => rw [hlk] at hb; exact absurd hb (by simp)
    | some s =>
      rw [hlk] at hb
      replace hb : non_blank s = true := hb
      simp [hb]
  · cases hrc : e.read_checks with
    | none => rfl
    | some ks =>
      rw [hrc] at hr
      replace hr : ks.all (fun k => (lookup_prop actual k).isSome) = true := hr
      rw [List.all_eq_true] at hr
      simp only [List.filterMap_eq_nil_iff]
      intro k hk
      simp [hr k hk]

/-- When every source's expectations are satisfied by the actual
configuration, validation returns the empty mapping. -/
theorem validate_eq_nil_of_satisfies (spm : SecurityParams)
    (exps : List (String × Expectations))
    (h : ∀ se ∈ exps, satisfies_expectations ((lookup_source spm se.1).getD []) se.2 = true) :
    validate_security_config_properties spm exps = [] := by
  unfold validate_security_config_properties
  rw [List.filterMap_eq_nil_iff]
  intro se hse
  have hchk := check_expectations_eq_nil _ _ (h se hse)
  simp [hchk]

/-- The accumulating string loop of the validation-failure branch equals the
seed followed by the concatenation of the failure lines in order. -/
theorem foldl_issues_eq (l : List (String × String)) (s : String) :
    l.foldl (fun acc cf => acc ++ "Configuration file " ++ cf.1
      ++ " did not pass the validation. Reason: " ++ cf.2) s
      = s ++ issues_concat l := by
  induction l generalizing s with
  | nil => simp [issues_concat, String.append_empty]
  | cons cf t ih =>
    rw [List.foldl_cons, ih, issues_concat, issue_line]
    simp [String.append_assoc]

/-! ## Claims -/

/-- C1 counterexample: with security enabled, an empty validation result and
only the principal configured (so at most one of principal and keytab is
set), `security_status` does invoke the credential check — refuting the
claim that the check runs only when the pair is configured. -/
theorem c1_counterexample :
    sp_only_principal.security_enabled = true
    ∧ py_truthy sp_only_principal.hdfs_user_keytab = false
    ∧ validate_security_config_properties good_params HdfsClient.hdfs_expectations = []
    ∧ (HdfsClient.security_status sp_only_principal good_params (Except.ok ())).2.credCheckInvoked
        = true :=
  ⟨rfl, rfl, by decide, by decide⟩

/-- C1 (amended): with security enabled and an empty validation result, the
credential check is invoked exactly when at least one of
`hdfs_user_principal` and `hdfs_user_keytab` is set (Python truthiness);
in particular it is not invoked when both are unset. -/
theorem c1_amended_cred_check_condition (sp : StatusParams) (spm : SecurityParams)
    (k : Except String Unit)
    (hen : sp.security_enabled = true)
    (hval : validate_security_config_properties spm HdfsClient.hdfs_expectations = []) :
    (HdfsClient.security_status sp spm k).2.credCheckInvoked
      = (py_truthy sp.hdfs_user_principal || py_truthy sp.hdfs_user_keytab) := by
  unfold HdfsClient.security_status
  rw [hen]
  simp only [if_true, hval, List.isEmpty_nil]
  cases hp : (py_truthy sp.hdfs_user_principal || py_truthy sp.hdfs_user_keytab)
  · simp [hp]
  · cases k <;> simp [hp]

/-- Witness for C1 (amended) at a concrete secured input. -/
theorem c1_amended_cred_check_condition_witness :
    (HdfsClient.security_status sp_secured good_params (Except.ok ())).2.credCheckInvoked
      = (py_truthy sp_secured.hdfs_user_principal || py_truthy sp_secured.hdfs_user_keytab) :=
  c1_amended_cred_check_condition sp_secured good_params (Except.ok ()) rfl (by decide)

/-- C2: with security enabled, every value and non-empty expectation
satisfied by the actual configuration, both principal and keytab
configured, and a successful credential check, `security_status` emits
exactly `{securityState: "SECURED_KERBEROS"}` with no `securityIssuesFound`
and no `securityStateErrorInfo`. -/
theorem c2_all_satisfied_secured_kerberos (sp : StatusParams) (spm : SecurityParams)
    (hen : sp.security_enabled = true)
    (hsat : ∀ se ∈ HdfsClient.hdfs_expectations,
      satisfies_expectations ((lookup_source spm se.1).getD []) se.2 = true)
    (hp : py_truthy sp.hdfs_user_principal = true)
    (hk : py_truthy sp.hdfs_user_keytab = true) :
    HdfsClient.security_status sp spm (Except.ok ())
      = (⟨some "SECURED_KERBEROS", none, none⟩, ⟨true, true, true⟩) := by
  have hval := validate_eq_nil_of_satisfies spm _ hsat
  unfold HdfsClient.security_status
  rw [hen]
  simp [hval, hp, hk, put_securityState]

/-- Witness for C2 at a concrete satisfying configuration. -/
theorem c2_all_satisfied_secured_kerberos_witness :
    HdfsClient.security_status sp_secured good_params (Except.ok ())
      = (⟨some "SECURED_KERBEROS", none, none⟩, ⟨true, true, true⟩) :=
  c2_all_satisfied_secured_kerberos sp_secured good_params rfl (by decide) rfl rfl

/-- C3: with security enabled and a non-empty validation result,
`security_status` reports `UNSECURED` and `securityIssuesFound` equal to the
concatenation, in mapping iteration order, of
`"Configuration file <source> did not pass the validation. Reason: <reason>"`
over the failing sources; a single failing source `core-site` with reason
`R` yields exactly that one line. -/
theorem c3_validation_failures_reported (sp : StatusParams) (spm : SecurityParams)
    (k : Except String Unit) (issues : List (String × String))
    (hen : sp.security_enabled = true)
    (hval : validate_security_config_properties spm HdfsClient.hdfs_expectations = issues)
    (hne : issues ≠ []) :
    HdfsClient.security_status sp spm k
      = (⟨some "UNSECURED", some (issues_concat issues), none⟩, ⟨true, true, false⟩)
    ∧ ∀ R, issues = [("core-site", R)] →
        (HdfsClient.security_status sp spm k).1.securityIssuesFound
          = some ("Configuration file core-site did not pass the validation. Reason: " ++ R) := by
  have hmain : HdfsClient.security_status sp spm k
      = (⟨some "UNSECURED", some (issues_concat issues), none⟩, ⟨true, true, false⟩) := by
    unfold HdfsClient.security_status
    rw [hen]
    simp only [if_true, hval]
    rw [if_neg (by simpa using hne)]
    rw [foldl_issues_eq]
    simp [put_securityState, put_securityIssuesFound, String.empty_append]
  refine ⟨hmain, fun R hR => ?_⟩
  rw [hmain, hR]
  show some (issue_line ("core-site", R) ++ "") = _
  rw [String.append_empty]
  rfl

/-- Witness for C3 at an empty filesystem, where validation fails for
`core-site`. -/
theorem c3_validation_failures_reported_witness :
    HdfsClient.security_status sp_secured [] (Except.ok ())
      = (⟨some "UNSECURED",
          some (issues_concat (validate_security_config_properties [] HdfsClient.hdfs_expectations)),
          none⟩, ⟨true, true, false⟩) :=
  (c3_validation_failures_reported sp_secured [] (Except.ok ())
    (validate_security_config_properties [] HdfsClient.hdfs_expectations)
    rfl rfl (by decide)).1

/-- C4: with security enabled, validation passed, and neither principal nor
keytab configured, `security_status` reports `UNSECURED` and its
`securityIssuesFound` contains the literal substring
`"principal and/or keytab file is not specified"`. -/
theorem c4_missing_identity_unsecured (sp : StatusParams) (spm : SecurityParams)
    (k : Except String Unit)
    (hen : sp.security_enabled = true)
    (hval : validate_security_config_properties spm HdfsClient.hdfs_expectations = [])
    (hp : py_truthy sp.hdfs_user_principal = false)
    (hk : py_truthy sp.hdfs_user_keytab = false) :
    (HdfsClient.security_status sp spm k).1.securityState = some "UNSECURED"
    ∧ ∃ pre post, (HdfsClient.security_status sp spm k).1.securityIssuesFound
        = some (pre ++ "principal and/or keytab file is not specified" ++ post) := by
  unfold HdfsClient.security_status
  rw [hen]
  simp only [if_true, hval, List.isEmpty_nil, hp, hk, Bool.or_false, Bool.false_or]
  refine ⟨by simp [put_securityState, put_securityIssuesFound], "hdfs ", "", ?_⟩
  simp [put_securityState, put_securityIssuesFound]

/-- Witness for C4 at a concrete identity-less input. -/
theorem c4_missing_identity_unsecured_witness :
    (HdfsClient.security_status sp_no_identity good_params (Except.ok ())).1.securityState
      = some "UNSECURED"
    ∧ ∃ pre post,
        (HdfsClient.security_status sp_no_identity good_params (Except.ok ())).1.securityIssuesFound
          = some (pre ++ "principal and/or keytab file is not specified" ++ post) :=
  c4_missing_identity_unsecured sp_no_identity good_params (Except.ok ()) rfl (by decide) rfl rfl

/-- C5: with security enabled, validation passed, and the credential check
invoked, a credential-check failure with message `"boom"` makes
`security_status` emit exactly `{securityState: "ERROR",
securityStateErrorInfo: "boom"}`; the failure is converted into the report,
not propagated. -/
theorem c5_cred_check_boom_error_report (sp : StatusParams) (spm : SecurityParams)
    (hen : sp.security_enabled = true)
    (hval : validate_security_config_properties spm HdfsClient.hdfs_expectations = [])
    (hid : (py_truthy sp.hdfs_user_principal || py_truthy sp.hdfs_user_keytab) = true) :
    HdfsClient.security_status sp spm (Except.error "boom")
      = (⟨some "ERROR", none, some "boom"⟩, ⟨true, true, true⟩) := by
  unfold HdfsClient.security_status
  rw [hen]
  simp [hval, hid, put_securityState, put_securityStateErrorInfo]

/-- Witness for C5 at a concrete secured input whose credential check raises
`"boom"`. -/
theorem c5_cred_check_boom_error_report_witness :
    HdfsClient.security_status sp_secured good_params (Except.error "boom")
      = (⟨some "ERROR", none, some "boom"⟩, ⟨true, true, true⟩) :=
  c5_cred_check_boom_error_report sp_secured good_params rfl (by decide) rfl

/-- C6: on every path of `security_status`, `securityStateErrorInfo` is
present only when `securityState` is `"ERROR"`, and `securityIssuesFound`
is present only when `securityState` is `"UNSECURED"`. -/
theorem c6_report_field_invariant (sp : StatusParams) (spm : SecurityParams)
    (k : Except String Unit) :
    ((HdfsClient.security_status sp spm k).1.securityStateErrorInfo ≠ none →
      (HdfsClient.security_status sp spm k).1.securityState = some "ERROR")
    ∧ ((HdfsClient.security_status sp spm k).1.securityIssuesFound ≠ none →
      (HdfsClient.security_status sp spm k).1.securityState = some "UNSECURED") := by
  unfold HdfsClient.security_status
  cases hen : sp.security_enabled
  · simp [put_securityState]
  · simp only [if_true]
    split
    · split
      · cases k <;> simp [put_securityState, put_securityStateErrorInfo]
      · simp [put_securityState, put_securityIssuesFound]
    · simp [put_securityState, put_securityIssuesFound]

/-- Witness for C6 on the error path at a concrete input. -/
theorem c6_report_field_invariant_witness :
    (HdfsClient.security_status sp_secured good_params (Except.error "krb5 failure")).1.securityState
      = some "ERROR" :=
  (c6_report_field_invariant sp_secured good_params (Except.error "krb5 failure")).1 (by decide)

/-- C7: with security disabled, `security_status` returns exactly
`{securityState: "UNSECURED"}` and performs no configuration read, no
validation and no credential check, for every reader result and credential
capability. -/
theorem c7_security_disabled_short_circuit (sp : StatusParams) (spm : SecurityParams)
    (k : Except String Unit)
    (hen : sp.security_enabled = false) :
    HdfsClient.security_status sp spm k
      = (⟨some "UNSECURED", none, none⟩, ⟨false, false, false⟩) := by
  unfold HdfsClient.security_status
  rw [hen]
  simp [put_securityState]

/-- Witness for C7 at a concrete disabled input. -/
theorem c7_security_disabled_short_circuit_witness :
    HdfsClient.security_status sp_disabled good_params (Except.ok ())
      = (⟨some "UNSECURED", none, none⟩, ⟨false, false, false⟩) :=
  c7_security_disabled_short_circuit sp_disabled good_params (Except.ok ()) rfl

/-- C8: `pre_rolling_restart` executes a command exactly when a version is
set (truthy) and its semantic comparison against the threshold `"2.2.0.0"`
is greater than or equal; in that case the command is
`"hdp-select set hadoop-client <version>"`, and otherwise nothing runs. -/
theorem c8_version_gated_command (version : Option String) :
    ((HdfsClient.pre_rolling_restart version).isSome = true
      ↔ ∃ v, version = some v ∧ py_truthy version = true
          ∧ HdfsClient.compare_versions (HdfsClient.format_hdp_stack_version v) "2.2.0.0" ≥ 0)
    ∧ (∀ v, version = some v → py_truthy version = true →
        HdfsClient.compare_versions (HdfsClient.format_hdp_stack_version v) "2.2.0.0" ≥ 0 →
        HdfsClient.pre_rolling_restart version
          = some ("hdp-select set hadoop-client " ++ v)) := by
  cases version with
  | none => simp [HdfsClient.pre_rolling_restart, py_truthy]
  | some v =>
    constructor
    · constructor
      · intro h
        refine ⟨v, rfl, ?_, ?_⟩
        · by_contra hfalse
          simp only [py_truthy, ne_eq, Bool.not_eq_true, decide_eq_false_iff_not,
            Decidable.not_not] at hfalse
          simp [HdfsClient.pre_rolling_restart, hfalse] at h
        · by_contra hfalse
          simp [HdfsClient.pre_rolling_restart] at h
          exact hfalse h.2
      · rintro ⟨w, hw, ht, hge⟩
        cases hw
        simp only [py_truthy, ne_eq, decide_eq_true_eq] at ht
        have hred : HdfsClient.pre_rolling_restart (some v)
            = if v ≠ "" ∧ HdfsClient.compare_versions (HdfsClient.format_hdp_stack_version v) "2.2.0.0" ≥ 0 then
                some ("hdp-select set hadoop-client " ++ v) else none := rfl
        rw [hred, if_pos ⟨ht, hge⟩]
        rfl
    · intro w hw ht hge
      cases hw
      simp only [py_truthy, ne_eq, decide_eq_true_eq] at ht
      have hred : HdfsClient.pre_rolling_restart (some v)
          = if v ≠ "" ∧ HdfsClient.compare_versions (HdfsClient.format_hdp_stack_version v) "2.2.0.0" ≥ 0 then
              some ("hdp-select set hadoop-client " ++ v) else none := rfl
      rw [hred, if_pos ⟨ht, hge⟩]

/-- Witness for C8 at a version above the threshold. -/
theorem c8_version_gated_command_witness :
    HdfsClient.pre_rolling_restart (some "2.3.0.0")
      = some ("hdp-select set hadoop-client " ++ "2.3.0.0") :=
  (c8_version_gated_command (some "2.3.0.0")).2 "2.3.0.0" rfl (by decide) (by decide)

/-- C9: for every environment, `status` fails with the
client-component-has-no-status signal and never returns normally. -/
theorem c9_status_always_raises (Env : Type) (env : Env) :
    HdfsClient.status env
      = Except.error HdfsClient.ScriptSignal.clientComponentHasNoStatus := rfl

/-- C10: the credential-check failure path catches every exception: for any
message carried by the raised exception, `security_status` converts it into
`{securityState: "ERROR", securityStateErrorInfo: <message>}` and
propagates nothing. -/
theorem c10_cred_check_catches_all_exceptions (sp : StatusParams) (spm : SecurityParams)
    (msg : String)
    (hen : sp.security_enabled = true)
    (hval : validate_security_config_properties spm HdfsClient.hdfs_expectations = [])
    (hid : (py_truthy sp.hdfs_user_principal || py_truthy sp.hdfs_user_keytab) = true) :
    HdfsClient.security_status sp spm (Except.error msg)
      = (⟨some "ERROR", none, some msg⟩, ⟨true, true, true⟩) := by
  unfold HdfsClient.security_status
  rw [hen]
  simp [hval, hid, put_securityState, put_securityStateErrorInfo]

/-- Witness for C10 at a concrete non-"boom" exception message. -/
theorem c10_cred_check_catches_all_exceptions_witness :
    HdfsClient.security_status sp_secured good_params (Except.error "kinit: cannot contact KDC")
      = (⟨some "ERROR", none, some "kinit: cannot contact KDC"⟩, ⟨true, true, true⟩) :=
  c10_cred_check_catches_all_exceptions sp_secured good_params "kinit: cannot contact KDC"
    rfl (by decide) rfl
